import Mathlib

/-!
Verification development for the Little Loaf Cottage storefront.

The definitions below are a shallow embedding of the repository's checkout
and payment code:

* the cart store (`src/contexts/OrderContext.jsx`),
* the render-time grouping of cart entries (`src/components/Order.jsx`),
* the client email helper (`src/utils/emailService.js`),
* the payment widget submit handler (`SquarePaymentForm`, bundled in
  `src/components/Contact.jsx`),
* the serverless payment function (`process-payment`, the Netlify handler).

Modelling conventions: JavaScript numbers are exact rationals plus an
explicit NaN marker (binary floating point rounding is not modelled); JSON
values are an inductive `Json` type; request-body fields are taken after
the JavaScript coercions the source applies to them (`parseFloat` for a
string amount, `Number` for `amountCents`); environment variables are
options, `none` meaning unset or empty (both are falsy under `||`).
-/

/-- A JavaScript number: NaN or an exact rational. -/
inductive JSNum where
  | nan
  | fin (q : ℚ)
deriving DecidableEq

/-- `Math.round`: round half toward positive infinity. -/
def jsRound (q : ℚ) : ℤ := Int.floor (q + 1/2)

/-- `Number.isFinite` (the model has no infinities, only NaN). -/
def jsIsFinite : JSNum → Bool
  | JSNum.nan => false
  | JSNum.fin _ => true

/-- The `<` comparison on JS numbers; any comparison with NaN is false. -/
def jsNumLt : JSNum → JSNum → Bool
  | JSNum.fin x, JSNum.fin y => decide (x < y)
  | _, _ => false

/-- The `>` comparison on JS numbers; any comparison with NaN is false. -/
def jsNumGt : JSNum → JSNum → Bool
  | JSNum.fin x, JSNum.fin y => decide (y < x)
  | _, _ => false

/-- `a || b` on strings: the first operand unless it is falsy (empty). -/
def resolveStr (v : Option String) (dflt : String) : String :=
  match v with
  | some s => if s = "" then dflt else s
  | none => dflt

/-- The whitespace characters relevant to `String.prototype.trim` here. -/
def isSpaceChar (c : Char) : Bool :=
  c = ' ' || c = '\t' || c = '\n' || c = '\r'

/-- `String.prototype.trim`. -/
def jsTrim (s : String) : String :=
  String.mk (((s.toList.dropWhile isSpaceChar).reverse.dropWhile isSpaceChar).reverse)

/-- `String.prototype.toUpperCase` (ASCII). -/
def jsToUpper (s : String) : String :=
  String.mk (s.toList.map Char.toUpper)

/-- Accumulating splitter behind `jsSplitComma`. -/
def splitCommaAux : List Char → List Char → List String
  | [], acc => [String.mk acc.reverse]
  | c :: rest, acc =>
    if c = ',' then String.mk acc.reverse :: splitCommaAux rest []
    else splitCommaAux rest (c :: acc)

/-- `String.prototype.split(',')`: `""` gives `[""]`, separators are kept as
empty segments. -/
def jsSplitComma (s : String) : List String :=
  splitCommaAux s.toList []

/-- A JSON value (numbers are exact rationals; JSON has no NaN). -/
inductive Json where
  | null
  | bool (b : Bool)
  | num (q : ℚ)
  | str (s : String)
  | arr (elems : List Json)
  | obj (fields : List (String × Json))

/-- First-match association lookup on JSON object fields. -/
def lookupField : List (String × Json) → String → Option Json
  | [], _ => none
  | (k', v) :: rest, k => if k' = k then some v else lookupField rest k

/-- Property access `j[k]` on a JSON value (none when not an object either). -/
def jsonGet (j : Json) (k : String) : Option Json :=
  match j with
  | Json.obj fs => lookupField fs k
  | _ => none

/-- Property access through an optional body. -/
def jsonGetOpt (j : Option Json) (k : String) : Option Json :=
  match j with
  | some v => jsonGet v k
  | none => none

/-- JavaScript truthiness of a JSON value. -/
def Json.truthy : Json → Bool
  | Json.null => false
  | Json.bool b => b
  | Json.num q => decide (q ≠ 0)
  | Json.str s => decide (s ≠ "")
  | Json.arr _ => true
  | Json.obj _ => true

/-- Render a rational the way JSON renders a number. Integer values print
exactly; non-integers use the Rat printer (a harmless approximation of JS
float formatting — no verified property depends on this string). -/
def qToStr (q : ℚ) : String :=
  if q.den = 1 then toString q.num else toString q

/-- Escape a character for a JSON string literal (quote and backslash). -/
def escapeChar (c : Char) : String :=
  if c = '"' then "\\\"" else if c = '\\' then "\\\\" else String.singleton c

/-- Quote a string for JSON output. -/
def quoteStr (s : String) : String :=
  "\"" ++ String.join (s.toList.map escapeChar) ++ "\""

mutual

/-- `JSON.stringify` on the model. -/
def Json.stringify : Json → String
  | Json.null => "null"
  | Json.bool b => cond b "true" "false"
  | Json.num q => qToStr q
  | Json.str s => quoteStr s
  | Json.arr xs => "[" ++ stringifyList xs ++ "]"
  | Json.obj fs => "\x7b" ++ stringifyFields fs ++ "\x7d"

/-- Comma-separated serialization of array elements. -/
def stringifyList : List Json → String
  | [] => ""
  | [j] => Json.stringify j
  | j :: rest => Json.stringify j ++ "," ++ stringifyList rest

/-- Comma-separated serialization of object fields. -/
def stringifyFields : List (String × Json) → String
  | [] => ""
  | [(k, v)] => quoteStr k ++ ":" ++ Json.stringify v
  | (k, v) :: rest => quoteStr k ++ ":" ++ Json.stringify v ++ "," ++ stringifyFields rest

end

mutual

/-- JavaScript `String(v)` coercion, as used by `Array.prototype.join`. -/
def jsDisplay : Json → String
  | Json.null => "null"
  | Json.bool b => cond b "true" "false"
  | Json.num q => qToStr q
  | Json.str s => s
  | Json.arr xs => jsDisplayList xs
  | Json.obj _ => "[object Object]"

/-- `String([...])`: elements coerced and joined with commas. -/
def jsDisplayList : List Json → String
  | [] => ""
  | [j] => jsDisplay j
  | j :: rest => jsDisplay j ++ "," ++ jsDisplayList rest

end

/- ===== Cart store: src/contexts/OrderContext.jsx ===== -/

/-- An item as stored in the cart (`selectedItems`); the source objects also
carry description/image fields that no cart operation reads. -/
structure OrderItem where
  name : String
  price : ℚ
deriving DecidableEq

/-- `addToOrder` (OrderContext.jsx:96-106): append the item to the list. -/
def addToOrder (item : OrderItem) (prev : List OrderItem) : List OrderItem :=
  prev ++ [item]

/-- `removeFromOrder` (OrderContext.jsx:112-118):
`prev.filter((_, i) => i !== index)`. -/
def removeFromOrder (index : ℕ) (prev : List OrderItem) : List OrderItem :=
  ((List.range prev.length).zip prev).filterMap
    (fun p => if p.1 = index then none else some p.2)

/-- `clearOrder` (OrderContext.jsx:124-127): empty the list. -/
def clearOrder (_prev : List OrderItem) : List OrderItem := []

/-- `totalPrice` (OrderContext.jsx:135):
`selectedItems.reduce((total, item) => total + item.price, 0)`. -/
def totalPrice (items : List OrderItem) : ℚ :=
  items.foldl (fun total item => total + item.price) 0

/-- A cart mutation issued through the context. -/
inductive CartOp where
  | add (item : OrderItem)
  | remove (index : ℕ)

/-- Apply one cart operation. -/
def applyCartOp (items : List OrderItem) : CartOp → List OrderItem
  | CartOp.add item => addToOrder item items
  | CartOp.remove index => removeFromOrder index items

/-- Run a sequence of add/remove operations from a starting cart. -/
def runCartOps (ops : List CartOp) (start : List OrderItem) : List OrderItem :=
  ops.foldl applyCartOp start

/- ===== Render-time grouping: src/components/Order.jsx:163-173 ===== -/

/-- A grouped order-summary entry (`{...item, quantity}`). -/
structure GroupedItem where
  name : String
  price : ℚ
  quantity : ℕ
deriving DecidableEq

/-- Mutating `existing.quantity += 1` on the first entry with this name. -/
def incrementFirst (name : String) : List GroupedItem → List GroupedItem
  | [] => []
  | g :: gs =>
    if g.name = name then { g with quantity := g.quantity + 1 } :: gs
    else g :: incrementFirst name gs

/-- One step of the `uniqueItems` reducer: find an entry by name and bump its
quantity, else push a fresh entry with quantity 1. -/
def groupStep (acc : List GroupedItem) (item : OrderItem) : List GroupedItem :=
  if acc.any (fun g => g.name = item.name) then incrementFirst item.name acc
  else acc ++ [{ name := item.name, price := item.price, quantity := 1 }]

/-- `uniqueItems` (Order.jsx:165-173): group cart entries by name. -/
def uniqueItems (items : List OrderItem) : List GroupedItem :=
  items.foldl groupStep []

/-- Total of the grouped view: sum of `price * quantity` over entries. -/
def groupedTotal (groups : List GroupedItem) : ℚ :=
  groups.foldl (fun total g => total + g.price * (g.quantity : ℚ)) 0

/-- Two cart entries that share a name carry the same unit price (in the
application every cart entry is a fixed menu item identified by name). -/
def PriceConsistent (items : List OrderItem) : Prop :=
  ∀ i j, i ∈ items → j ∈ items → i.name = j.name → i.price = j.price

/- ===== Email client helper: src/utils/emailService.js ===== -/

/-- True when `needle` occurs as a contiguous run at the head of `hay`. -/
def listStartsWith : List Char → List Char → Bool
  | [], _ => true
  | _ :: _, [] => false
  | a :: as, b :: bs => a = b && listStartsWith as bs

/-- True when `pat` occurs somewhere inside `hay` (tail recursion). -/
def containsSubAux (pat : List Char) : List Char → Bool
  | [] => listStartsWith pat []
  | h :: t => listStartsWith pat (h :: t) || containsSubAux pat t

/-- `String.prototype.includes`. -/
def jsIncludes (hay pat : String) : Bool :=
  containsSubAux pat.toList hay.toList

/-- The visible outcome of `fetch('/.netlify/functions/send-email', ...)`
followed by the response inspection `sendEmail` performs. -/
structure EmailFetchResp where
  contentType : Option String
  respOk : Bool
  respStatus : ℕ
  jsonOk : Bool
  resultStatus : Option String
  resultError : Option String
  text : String

/-- Either the fetch (or a nested step) rejects with an error message, or it
resolves with a response. -/
inductive EmailFetchOutcome where
  | rejected (message : String)
  | resolved (resp : EmailFetchResp)

/-- What `sendEmail` does: resolve with the parsed result, resolve with the
local-development skip object, or reject with an error message. -/
inductive SendEmailResult where
  | sent
  | localDevSkip
  | failed (message : String)
deriving DecidableEq

/-- The try-block of `sendEmail` (emailService.js:19-52): the error message it
throws, or success. -/
def sendEmailTry (resp : EmailFetchResp) : Sum String Unit :=
  match resp.contentType with
  | none => Sum.inl ("Invalid response from email service: " ++ resp.text)
  | some ct =>
    if !(jsIncludes ct "application/json") then
      Sum.inl ("Invalid response from email service: " ++ resp.text)
    else if !resp.jsonOk then
      Sum.inl ("Failed to parse JSON response: " ++ resp.text)
    else if !resp.respOk then
      Sum.inl (resolveStr resp.resultError
        ("Email sending failed with status " ++ toString resp.respStatus))
    else if resp.resultStatus ≠ some "SENT" then
      Sum.inl (resolveStr resp.resultError "Email sending failed")
    else Sum.inr ()

/-- The catch-block of `sendEmail` (emailService.js:53-63). Note: the branch
that converts transport failures into `LOCAL_DEV_SKIP` is keyed only on the
error message; no build-mode or environment flag is consulted anywhere. -/
def sendEmailCatch (message : String) : SendEmailResult :=
  if jsIncludes message "404" || jsIncludes message "Failed to fetch" ||
      jsIncludes message "Email service not configured" then
    SendEmailResult.localDevSkip
  else SendEmailResult.failed message

/-- `sendEmail` (emailService.js:18-64) as a function of the fetch outcome. -/
def sendEmail (outcome : EmailFetchOutcome) : SendEmailResult :=
  match outcome with
  | EmailFetchOutcome.rejected message => sendEmailCatch message
  | EmailFetchOutcome.resolved resp =>
    match sendEmailTry resp with
    | Sum.inl message => sendEmailCatch message
    | Sum.inr _ => SendEmailResult.sent

/- ===== Payment widget submit handler: SquarePaymentForm (in Contact.jsx) ===== -/

/-- The two guard flags `handlePayment` consults (Contact.jsx:925): the
`isProcessingPayment` state and the `validationRunningRef` ref. -/
structure PayGuardState where
  isProcessingPayment : Bool
  validationRunning : Bool
deriving DecidableEq

/-- The guard condition of Contact.jsx:925. -/
def payGuardBlocked (s : PayGuardState) : Bool :=
  s.isProcessingPayment || s.validationRunning

/-- The synchronous entry of `handlePayment` (Contact.jsx:923-931): a blocked
invocation returns immediately with no state change (`none`); otherwise both
flags are set before any awaited work begins. -/
def handlePaymentEnter (s : PayGuardState) : Option PayGuardState :=
  if payGuardBlocked s then none
  else some { isProcessingPayment := true, validationRunning := true }

/-- The `finally` block (Contact.jsx:1022-1025): both flags are cleared. -/
def handlePaymentFinally (_s : PayGuardState) : PayGuardState :=
  { isProcessingPayment := false, validationRunning := false }

/-- Externally visible actions of one `handlePayment` attempt. -/
inductive PayEvent where
  | tokenizeCall
  | backendSubmit
deriving DecidableEq

/-- Events of an invocation that passed the guard and reached
`cardRef.current.tokenize()`: the tokenize call, then a backend submission
exactly when tokenization returned status OK (Contact.jsx:955-975). -/
def payAttemptEvents (tokenizeOk : Bool) : List PayEvent :=
  PayEvent.tokenizeCall :: (if tokenizeOk then [PayEvent.backendSubmit] else [])

/-- The idle guard state before any click. -/
def payIdle : PayGuardState := { isProcessingPayment := false, validationRunning := false }

/-- Two rapid Pay clicks: the first passes the guard and awaits `tokenize()`;
the second runs while that await is pending, against the flags the first set
synchronously. The second contributes its own full attempt only if it also
passes the guard. Returns the combined event list and the final state after
the first invocation's `finally`. -/
def rapidDoublePayTrace (tokenizeOk : Bool) : List PayEvent × PayGuardState :=
  match handlePaymentEnter payIdle with
  | none => ([], payIdle)
  | some s1 =>
    let secondEvents :=
      match handlePaymentEnter s1 with
      | none => ([] : List PayEvent)
      | some _ => payAttemptEvents tokenizeOk
    (PayEvent.tokenizeCall ::
        (secondEvents ++ (if tokenizeOk then [PayEvent.backendSubmit] else [])),
      handlePaymentFinally s1)

/-- The COMPLETED branch of `handlePayment` (Contact.jsx:977-995): whether the
confirmation emails are attempted and which callback fires. The email outcome
is an input because the source inspects it (`emailResult.success`) and its
thrown errors (catch at line 990) without letting either alter control flow. -/
inductive EmailsOutcome where
  | resolved (success : Bool)
  | thrown
deriving DecidableEq

/-- Result of the branch taken after the backend response is parsed. -/
structure PayBranchResult where
  emailsAttempted : Bool
  successCallbackInvoked : Bool
  errorCallbackInvoked : Bool
deriving DecidableEq

/-- Contact.jsx:977-998: on `response.ok && paymentResult.status === 'COMPLETED'`
run the best-effort email side effect (failures swallowed by the empty
`if (!emailResult.success)` body and the empty catch) and invoke
`onPaymentSuccess`; otherwise throw, which the outer catch routes to
`onPaymentError`. -/
def afterBackendResponse (responseOk : Bool) (statusCompleted : Bool)
    (customerEmail : Option String) (emails : EmailsOutcome) : PayBranchResult :=
  if responseOk && statusCompleted then
    match customerEmail with
    | some ce =>
      if ce = "" then
        { emailsAttempted := false, successCallbackInvoked := true,
          errorCallbackInvoked := false }
      else
        match emails with
        | EmailsOutcome.resolved _ =>
          { emailsAttempted := true, successCallbackInvoked := true,
            errorCallbackInvoked := false }
        | EmailsOutcome.thrown =>
          { emailsAttempted := true, successCallbackInvoked := true,
            errorCallbackInvoked := false }
    | none =>
      { emailsAttempted := false, successCallbackInvoked := true,
        errorCallbackInvoked := false }
  else
    { emailsAttempted := false, successCallbackInvoked := false,
      errorCallbackInvoked := true }

/- ===== Order page success handling: src/components/Order.jsx ===== -/

/-- The Order page state that `handlePaymentSuccess` touches. -/
structure OrderPageState where
  paymentStep : String
  isSubmitting : Bool
  paymentError : String
  cart : List OrderItem
deriving DecidableEq

/-- `handlePaymentSuccess` (Order.jsx:72-94). `threw` selects the catch path
(which still transitions to success but skips `clearOrder`); the normal try
path clears submission state, moves to the success step and clears the cart
through the context's `clearOrder`. -/
def handlePaymentSuccess (s : OrderPageState) (threw : Bool) : OrderPageState :=
  if threw then
    { s with
      isSubmitting := false,
      paymentError :=
        "Payment successful, but failed to send confirmation emails. Your order has been processed.",
      paymentStep := "success" }
  else
    { s with
      isSubmitting := false,
      paymentError := "",
      paymentStep := "success",
      cart := clearOrder s.cart }

/- ===== Payment Backend: the process-payment Netlify handler ===== -/

/-- Environment configuration read by the handler. Each field is the resolved
value of `process.env.X || process.env.VITE_X` with `none` standing for unset
or empty (falsy). The two amount-bound fields hold the configured value after
the source's `Number(...)` coercion. -/
structure PBEnv where
  ALLOWED_ORIGINS : Option String
  DEBUG_PROCESS_PAYMENT : Option String
  ALLOWED_CURRENCIES : Option String
  MIN_AMOUNT_CENTS : Option JSNum
  MAX_AMOUNT_CENTS : Option JSNum
  SQUARE_ACCESS_TOKEN : Option String
  SQUARE_LOCATION_ID : Option String
  SQUARE_ENVIRONMENT : Option String

/-- The `debug` flag: `process.env.DEBUG_PROCESS_PAYMENT === 'true'`. -/
def debugOf (env : PBEnv) : Bool :=
  env.DEBUG_PROCESS_PAYMENT = some "true"

/-- `ALLOWED_ORIGINS` processing (handler line 49):
`(raw || '').split(',').map(s => s.trim()).filter(Boolean)`. -/
def allowedOriginsOf (env : PBEnv) : List String :=
  ((jsSplitComma (env.ALLOWED_ORIGINS.getD "")).map jsTrim).filter
    (fun s => s ≠ "")

/-- `getCorsHeaders` (handler lines 51-58). -/
def getCorsHeaders (env : PBEnv) (origin : Option String) : List (String × String) :=
  let allowedOrigins := allowedOriginsOf env
  let originStr := origin.getD ""
  let allowed := allowedOrigins.isEmpty ||
    (decide (originStr ≠ "") && allowedOrigins.contains originStr)
  [("Access-Control-Allow-Origin",
      if allowed then (if originStr = "" then "*" else originStr) else "null"),
   ("Access-Control-Allow-Headers", "Content-Type"),
   ("Access-Control-Allow-Methods", "POST, OPTIONS")]

/-- `ALLOWED_CURRENCIES` processing (handler line 157):
`(raw || 'USD').split(',').map(s => s.trim().toUpperCase()).filter(Boolean)`. -/
def allowedCurrenciesOf (env : PBEnv) : List String :=
  ((jsSplitComma (resolveStr env.ALLOWED_CURRENCIES "USD")).map
      (fun s => jsToUpper (jsTrim s))).filter (fun s => s ≠ "")

/-- The `sourceId` field as destructured from the body: absent (or another
falsy value), a string, or a truthy non-string value. -/
inductive SourceVal where
  | undef
  | str (s : String)
  | nonString
deriving DecidableEq

/-- JS falsiness of the `sourceId` value (the `!sourceId` check, line 118). -/
def sourceIdFalsy : SourceVal → Bool
  | SourceVal.undef => true
  | SourceVal.str s => s = ""
  | SourceVal.nonString => false

/-- The line-130 check: `typeof sourceId === 'string' && sourceId.trim().length > 0`. -/
def sourceIdValidString : SourceVal → Bool
  | SourceVal.str s => jsTrim s ≠ ""
  | _ => false

/-- The string payload of a valid `sourceId`. -/
def sourceIdString : SourceVal → String
  | SourceVal.str s => s
  | _ => ""

/-- The destructured request body (line 101). `amount` is the value after the
line-144 coercion `typeof amount === 'string' ? parseFloat(amount) : amount`,
with `none` for the `rawAmount == null` case (absent or null); `amountCents`
is the value after `Number(amountCents)` with `none` when the field is
undefined or null. -/
structure RequestBody where
  sourceId : SourceVal
  amount : Option JSNum
  amountCents : Option JSNum
  currency : Option String
  idempotencyKey : Option String

/-- Outcome of parsing `event.body` (lines 86-99). -/
inductive ParsedBody where
  | malformed
  | parsed (b : RequestBody)

/-- The parts of the Netlify event the handler reads. `origin` is
`event.headers && (event.headers.origin || event.headers.Origin)`. -/
structure PBEvent where
  httpMethod : String
  origin : Option String
  body : ParsedBody

/-- Amount normalization (handler lines 138-154). -/
def finalAmountOf (b : RequestBody) : JSNum :=
  match b.amountCents with
  | some n => n
  | none =>
    match b.amount with
    | none => JSNum.nan
    | some JSNum.nan => JSNum.nan
    | some (JSNum.fin q) =>
      if q.den = 1 then
        if 1000 < q then JSNum.fin q
        else JSNum.fin ((jsRound (q * 100) : ℤ) : ℚ)
      else JSNum.fin ((jsRound (q * 100) : ℤ) : ℚ)

/-- `idempotencyKey || (crypto.randomUUID ? crypto.randomUUID() : uuidv4())`
(line 213); `freshKey` is the value the generator would produce. -/
def finalIdempotencyKey (idempotencyKey : Option String) (freshKey : String) : String :=
  resolveStr idempotencyKey freshKey

/-- An HTTP response as the handler returns it; `body` is the object passed to
`JSON.stringify`, `none` for the empty-string body of the OPTIONS branch. -/
structure PBResponse where
  statusCode : ℕ
  headers : List (String × String)
  body : Option Json

/-- A JS number as a JSON field value (`JSON.stringify(NaN)` gives null). -/
def jsNumToJson : JSNum → Json
  | JSNum.nan => Json.null
  | JSNum.fin q => Json.num q

/-- Spread-plus-content-type headers: `{...getCorsHeaders(origin), 'Content-Type': 'application/json'}`. -/
def corsJsonHeaders (env : PBEnv) (origin : Option String) : List (String × String) :=
  getCorsHeaders env origin ++ [("Content-Type", "application/json")]

/-- The OPTIONS preflight response (lines 60-67). -/
def optionsResponse (env : PBEnv) (origin : Option String) : PBResponse :=
  { statusCode := 200, headers := getCorsHeaders env origin, body := none }

/-- The 405 response for non-POST methods (lines 70-82). -/
def methodNotAllowedResponse : PBResponse :=
  { statusCode := 405,
    headers := [("Access-Control-Allow-Origin", "*"), ("Content-Type", "application/json")],
    body := some (Json.obj
      [("error", Json.str "Method not allowed"), ("status", Json.str "FAILED")]) }

/-- The 400 response for unparsable JSON (lines 91-98). -/
def invalidJsonResponse : PBResponse :=
  { statusCode := 400,
    headers := [("Access-Control-Allow-Origin", "*"), ("Content-Type", "application/json")],
    body := some (Json.obj
      [("error", Json.str "Invalid JSON in request body"), ("status", Json.str "FAILED")]) }

/-- The 400 response for a missing `sourceId` (lines 118-127). -/
def missingSourceIdResponse (env : PBEnv) (origin : Option String) : PBResponse :=
  { statusCode := 400,
    headers := corsJsonHeaders env origin,
    body := some (Json.obj
      [("error", Json.str "Missing sourceId (payment token)"), ("status", Json.str "FAILED")]) }

/-- The 400 response for an invalid `sourceId` (lines 130-136). -/
def invalidSourceIdResponse (env : PBEnv) (origin : Option String) : PBResponse :=
  { statusCode := 400,
    headers := corsJsonHeaders env origin,
    body := some (Json.obj
      [("error", Json.str "Invalid sourceId"), ("status", Json.str "FAILED")]) }

/-- The 400 response for an unsupported currency (lines 158-164). -/
def unsupportedCurrencyResponse (env : PBEnv) (origin : Option String) : PBResponse :=
  { statusCode := 400,
    headers := corsJsonHeaders env origin,
    body := some (Json.obj
      [("error", Json.str "Unsupported currency"), ("status", Json.str "FAILED")]) }

/-- The 400 response for an out-of-bounds amount (lines 169-179). -/
def outOfBoundsResponse (env : PBEnv) (origin : Option String)
    (minCents maxCents : JSNum) : PBResponse :=
  { statusCode := 400,
    headers := corsJsonHeaders env origin,
    body := some (Json.obj
      [("error", Json.str "Invalid payment amount (out of bounds)"),
       ("status", Json.str "FAILED"),
       ("details", Json.obj
         [("min", jsNumToJson minCents), ("max", jsNumToJson maxCents)])]) }

/-- The 500 response for missing server configuration (lines 188-197). -/
def serverConfigErrorResponse (env : PBEnv) (origin : Option String) : PBResponse :=
  { statusCode := 500,
    headers := corsJsonHeaders env origin,
    body := some (Json.obj
      [("error", Json.str "Server configuration error"), ("status", Json.str "FAILED")]) }

/-- The normalized request sent to the processor (lines 217-226). -/
structure SquarePaymentRequest where
  source_id : String
  idempotency_key : String
  amount : JSNum
  currency : String
  location_id : String
  note : String
deriving DecidableEq

/-- The outbound call the handler is about to make (lines 200-202, 231). -/
structure SquareCall where
  url : String
  request : SquarePaymentRequest
deriving DecidableEq

/-- `err.detail || err.message || JSON.stringify(err)` (line 254), coerced to
a string the way `Array.prototype.join` would. -/
def squareErrToMessage (e : Json) : String :=
  match jsonGet e "detail" with
  | some d =>
    if d.truthy then jsDisplay d
    else
      match jsonGet e "message" with
      | some m => if m.truthy then jsDisplay m else Json.stringify e
      | none => Json.stringify e
  | none =>
    match jsonGet e "message" with
    | some m => if m.truthy then jsDisplay m else Json.stringify e
    | none => Json.stringify e

/-- The `data && data.errors && data.errors.length > 0` extraction feeding the
human-readable message (lines 253-255). -/
def errorMessageOf (data : Json) : String :=
  if data.truthy then
    match jsonGet data "errors" with
    | some (Json.arr es) =>
      if 0 < es.length then String.intercalate ", " (es.map squareErrToMessage)
      else "Payment processing failed"
    | _ => "Payment processing failed"
  else "Payment processing failed"

/-- `data && data.errors ? data.errors : []` (lines 264 and 269). -/
def squareErrorsField (data : Json) : Json :=
  if data.truthy then
    match jsonGet data "errors" with
    | some e => if e.truthy then e else Json.arr []
    | none => Json.arr []
  else Json.arr []

/-- The 400 response for a processor rejection (lines 244-271). Only in debug
mode does the body carry the raw `squareResponse` payload. -/
def processorRejectionResponse (env : PBEnv) (origin : Option String)
    (data : Json) : PBResponse :=
  { statusCode := 400,
    headers := corsJsonHeaders env origin,
    body := some (Json.obj
      (if debugOf env then
        [("error", Json.str (errorMessageOf data)),
         ("status", Json.str "FAILED"),
         ("squareErrors", squareErrorsField data),
         ("squareResponse", Json.str (Json.stringify data))]
      else
        [("error", Json.str (errorMessageOf data)),
         ("status", Json.str "FAILED"),
         ("squareErrors", squareErrorsField data)])) }

/-- The 200 response for a processor success (lines 275-283). -/
def completedResponse (env : PBEnv) (origin : Option String) (data : Json) : PBResponse :=
  { statusCode := 200,
    headers := corsJsonHeaders env origin,
    body := some (Json.obj
      [("status", Json.str "COMPLETED"),
       ("payment",
         if data.truthy &&
             (match jsonGet data "payment" with
              | some p => p.truthy
              | none => false) then
           (jsonGet data "payment").getD Json.null
         else data),
       ("message", Json.str "Payment processed successfully")]) }

/-- A thrown JavaScript error as the catch block sees it. -/
structure JsError where
  message : Option String
  stack : Option String

/-- The 500 response of the catch block (lines 285-308). -/
def unexpectedErrorResponse (env : PBEnv) (e : JsError) : PBResponse :=
  { statusCode := 500,
    headers := [("Access-Control-Allow-Origin", "*"), ("Content-Type", "application/json")],
    body := some (Json.obj
      (if debugOf env then
        [("error", Json.str (resolveStr e.message "Internal server error")),
         ("status", Json.str "FAILED"),
         ("detail",
           match e.stack with
           | some st => if st = "" then Json.null else Json.str st
           | none => Json.null)]
      else
        [("error", Json.str "Internal server error"),
         ("status", Json.str "FAILED"),
         ("message", Json.str "Payment processing failed. Please try again.")])) }

/-- The handler from entry to the processor call (lines 47-239): either an
early response (validation, configuration, method or parse failure) or the
outbound Square call it is about to await. `freshKey` is the idempotency key
the server-side generator would supply. -/
def handlerPre (env : PBEnv) (event : PBEvent) (freshKey : String) :
    Sum PBResponse SquareCall :=
  if event.httpMethod = "OPTIONS" then Sum.inl (optionsResponse env event.origin)
  else if event.httpMethod ≠ "POST" then Sum.inl methodNotAllowedResponse
  else
    match event.body with
    | ParsedBody.malformed => Sum.inl invalidJsonResponse
    | ParsedBody.parsed b =>
      if sourceIdFalsy b.sourceId then
        Sum.inl (missingSourceIdResponse env event.origin)
      else if !sourceIdValidString b.sourceId then
        Sum.inl (invalidSourceIdResponse env event.origin)
      else
        let finalAmount := finalAmountOf b
        if !((allowedCurrenciesOf env).contains
            (jsToUpper (resolveStr b.currency "USD"))) then
          Sum.inl (unsupportedCurrencyResponse env event.origin)
        else
          let minCents := env.MIN_AMOUNT_CENTS.getD (JSNum.fin 50)
          let maxCents := env.MAX_AMOUNT_CENTS.getD (JSNum.fin 1000000)
          if !(jsIsFinite finalAmount) || jsNumLt finalAmount minCents ||
              jsNumGt finalAmount maxCents then
            Sum.inl (outOfBoundsResponse env event.origin minCents maxCents)
          else if resolveStr env.SQUARE_ACCESS_TOKEN "" = "" ||
              resolveStr env.SQUARE_LOCATION_ID "" = "" then
            Sum.inl (serverConfigErrorResponse env event.origin)
          else
            Sum.inr
              { url :=
                  if resolveStr env.SQUARE_ENVIRONMENT "sandbox" = "production" then
                    "https://connect.squareup.com/v2/payments"
                  else "https://connect.squareupsandbox.com/v2/payments",
                request :=
                  { source_id := sourceIdString b.sourceId,
                    idempotency_key := finalIdempotencyKey b.idempotencyKey freshKey,
                    amount := finalAmount,
                    currency := b.currency.getD "USD",
                    location_id := resolveStr env.SQUARE_LOCATION_ID "",
                    note := "Little Loaf Cottage - Online Order" } }

/-- Response handling after the processor call resolves (lines 241-283). -/
def handlerPost (env : PBEnv) (origin : Option String) (responseOk : Bool)
    (data : Json) : PBResponse :=
  if !responseOk then processorRejectionResponse env origin data
  else completedResponse env origin data

/-- The outer catch block (lines 285-309). -/
def handlerCatch (env : PBEnv) (e : JsError) : PBResponse :=
  unexpectedErrorResponse env e

/-- The response invariant of the handler: JSON content type, a status field
that is COMPLETED or FAILED, COMPLETED exactly on HTTP 200. -/
def ResponseInvariant (r : PBResponse) : Prop :=
  ("Content-Type", "application/json") ∈ r.headers ∧
  (jsonGetOpt r.body "status" = some (Json.str "COMPLETED") ∨
    jsonGetOpt r.body "status" = some (Json.str "FAILED")) ∧
  (jsonGetOpt r.body "status" = some (Json.str "COMPLETED") ↔ r.statusCode = 200)

/-- The invariant lifted over the pre-call outcome: every early response
satisfies it (a pending processor call imposes nothing yet). -/
def PreInvariant : Sum PBResponse SquareCall → Prop
  | Sum.inl r => ResponseInvariant r
  | Sum.inr _ => True

/-- An environment with every variable unset: all defaults apply. -/
def defaultEnv : PBEnv :=
  { ALLOWED_ORIGINS := none, DEBUG_PROCESS_PAYMENT := none,
    ALLOWED_CURRENCIES := none, MIN_AMOUNT_CENTS := none,
    MAX_AMOUNT_CENTS := none, SQUARE_ACCESS_TOKEN := none,
    SQUARE_LOCATION_ID := none, SQUARE_ENVIRONMENT := none }

/-- A body that supplies only an `amount`. -/
def amountOnlyBody (a : JSNum) : RequestBody :=
  { sourceId := SourceVal.str "cnon:card-nonce", amount := some a,
    amountCents := none, currency := none, idempotencyKey := none }

/-- A body that supplies only an `amountCents`. -/
def centsOnlyBody (c : JSNum) : RequestBody :=
  { sourceId := SourceVal.str "cnon:card-nonce", amount := none,
    amountCents := some c, currency := none, idempotencyKey := none }

/-- A fully configured environment for runs that reach the processor call. -/
def configuredEnv : PBEnv :=
  { defaultEnv with
    SQUARE_ACCESS_TOKEN := some "token-1", SQUARE_LOCATION_ID := some "loc-1" }

/-- A well-formed POST event carrying the given parsed body. -/
def postEvent (b : RequestBody) : PBEvent :=
  { httpMethod := "POST", origin := none, body := ParsedBody.parsed b }

/- ===== Theorems ===== -/

/-- Claim C4: while one tokenization attempt is in flight (the guard flags are
set), a second Pay invocation returns without effect, so a rapid pair of Pay
clicks performs exactly one tokenize call and at most one backend
submission. -/
theorem claim_C4_reentrancy_guard (tokenizeOk : Bool) :
    (∀ s : PayGuardState, payGuardBlocked s = true → handlePaymentEnter s = none) ∧
    (rapidDoublePayTrace tokenizeOk).1.count PayEvent.tokenizeCall = 1 ∧
    (rapidDoublePayTrace tokenizeOk).1.count PayEvent.backendSubmit ≤ 1 := by
  refine ⟨?_, ?_, ?_⟩
  · intro s h
    simp [handlePaymentEnter, h]
  · cases tokenizeOk <;> decide
  · cases tokenizeOk <;> decide

/-- Concrete run of the re-entrancy guard: a second click with the in-flight
flag set is ignored, and the rapid pair produces a single tokenize call. -/
theorem claim_C4_witness :
    handlePaymentEnter { isProcessingPayment := true, validationRunning := false } = none ∧
    (rapidDoublePayTrace true).1.count PayEvent.tokenizeCall = 1 :=
  ⟨(claim_C4_reentrancy_guard true).1
      { isProcessingPayment := true, validationRunning := false } (by decide),
    (claim_C4_reentrancy_guard true).2.1⟩

/-- Claim C5: when the backend answers COMPLETED, any email side-effect
outcome (a rejected `sendOrderEmails` or a failure result) still reaches the
success callback and never the error callback, and the Order page success
handler moves to the success step and clears the cart. -/
theorem claim_C5_email_failure_never_blocks_success
    (customerEmail : Option String) (emails : EmailsOutcome) (s : OrderPageState) :
    (afterBackendResponse true true customerEmail emails).successCallbackInvoked = true ∧
    (afterBackendResponse true true customerEmail emails).errorCallbackInvoked = false ∧
    (handlePaymentSuccess s false).paymentStep = "success" ∧
    (handlePaymentSuccess s false).cart = [] := by
  refine ⟨?_, ?_, ?_, ?_⟩ <;>
    cases emails <;>
      cases customerEmail <;>
        simp [afterBackendResponse, handlePaymentSuccess, clearOrder] <;>
          split <;> rfl

/-- Claim C7 fails on the store: two adds of the same named item leave two
separate entries in `selectedItems`, not one grouped entry. -/
theorem claim_C7_counterexample :
    addToOrder { name := "Sourdough Loaf", price := 8 }
        (addToOrder { name := "Sourdough Loaf", price := 8 } []) =
      [{ name := "Sourdough Loaf", price := 8 }, { name := "Sourdough Loaf", price := 8 }] ∧
    (addToOrder { name := "Sourdough Loaf", price := 8 }
        (addToOrder { name := "Sourdough Loaf", price := 8 } [])).length = 2 := by
  exact ⟨rfl, rfl⟩

/-- Claim C7 amended: the store appends one entry per add; the grouping by
name happens at render time (`uniqueItems` in Order.jsx), where two adds of
the same named item show as a single grouped entry with quantity 2. -/
theorem claim_C7_amended (item : OrderItem) :
    addToOrder item (addToOrder item []) = [item, item] ∧
    uniqueItems (addToOrder item (addToOrder item [])) =
      [{ name := item.name, price := item.price, quantity := 2 }] := by
  constructor
  · rfl
  · simp [addToOrder, uniqueItems, groupStep, incrementFirst]

/-- Claim C9 fails on the code: `sendEmail`'s skipped-outcome fallback is
keyed only on the error message and no build-mode flag exists anywhere in the
function, so the same transport failures yield `LOCAL_DEV_SKIP` in every
build, production included; an unrelated failure still propagates. -/
theorem claim_C9_fallback_unconditional :
    sendEmail (EmailFetchOutcome.rejected "Failed to fetch") =
      SendEmailResult.localDevSkip ∧
    sendEmail (EmailFetchOutcome.rejected "Email service not configured") =
      SendEmailResult.localDevSkip ∧
    sendEmail (EmailFetchOutcome.rejected "connection reset") =
      SendEmailResult.failed "connection reset" := by
  exact ⟨rfl, rfl, rfl⟩

/-- Rounding an integer-valued amount is the identity. -/
lemma jsRound_intCast (m : ℤ) : jsRound ((m : ℚ)) = m := by
  unfold jsRound
  rw [Int.floor_int_add]
  norm_num

/-- Claim C1: the normalized minor-unit amount is `Number(amountCents)` when
that field is present; otherwise a non-integer amount is treated as major
units and rounded to the nearest minor unit, and an integer amount is kept
as-is above the 1000 threshold and multiplied by 100 otherwise. The four
worked examples of the spec are included. -/
theorem claim_C1_amount_normalization (b : RequestBody) :
    (∀ n, b.amountCents = some n → finalAmountOf b = n) ∧
    (∀ q : ℚ, b.amountCents = none → b.amount = some (JSNum.fin q) → q.den ≠ 1 →
      finalAmountOf b = JSNum.fin ((jsRound (q * 100) : ℤ) : ℚ)) ∧
    (∀ z : ℤ, b.amountCents = none → b.amount = some (JSNum.fin (z : ℚ)) →
      finalAmountOf b = JSNum.fin (if 1000 < z then (z : ℚ) else (z : ℚ) * 100)) ∧
    finalAmountOf (amountOnlyBody (JSNum.fin 12.34)) = JSNum.fin 1234 ∧
    finalAmountOf (centsOnlyBody (JSNum.fin 500)) = JSNum.fin 500 ∧
    finalAmountOf (amountOnlyBody (JSNum.fin 50000)) = JSNum.fin 50000 ∧
    finalAmountOf (amountOnlyBody (JSNum.fin 5)) = JSNum.fin 500 := by
  refine ⟨?_, ?_, ?_, ?_, ?_, ?_, ?_⟩
  · intro n h
    simp [finalAmountOf, h]
  · intro q h1 h2 hden
    simp [finalAmountOf, h1, h2, hden]
  · intro z h1 h2
    by_cases h : (1000 : ℤ) < z
    · have h' : (1000 : ℚ) < (z : ℚ) := by exact_mod_cast h
      simp [finalAmountOf, h1, h2, Rat.den_intCast, h, h']
    · have h' : ¬ (1000 : ℚ) < (z : ℚ) := by exact_mod_cast h
      have hr : jsRound ((z : ℚ) * 100) = z * 100 := by
        have : ((z : ℚ) * 100) = ((z * 100 : ℤ) : ℚ) := by push_cast; ring
        rw [this, jsRound_intCast]
      simp [finalAmountOf, h1, h2, Rat.den_intCast, h, h', hr]
  · have hden : (12.34 : ℚ).den = 50 := by norm_num [Rat.den]
    have hr : jsRound ((12.34 : ℚ) * 100) = 1234 := by
      norm_num [jsRound]
    simp [finalAmountOf, amountOnlyBody, hden, hr]
  · rfl
  · have hden : (50000 : ℚ).den = 1 := by norm_num [Rat.den]
    have hlt : (1000 : ℚ) < 50000 := by norm_num
    simp [finalAmountOf, amountOnlyBody, hden, hlt]
  · have hden : (5 : ℚ).den = 1 := by norm_num [Rat.den]
    have hlt : ¬ (1000 : ℚ) < 5 := by norm_num
    have hr : jsRound ((5 : ℚ) * 100) = 500 := by norm_num [jsRound]
    simp [finalAmountOf, amountOnlyBody, hden, hlt, hr]

/-- Concrete instance of amount normalization: `amountCents: 500` passes
through exactly. -/
theorem claim_C1_witness :
    finalAmountOf (centsOnlyBody (JSNum.fin 500)) = JSNum.fin 500 :=
  (claim_C1_amount_normalization (centsOnlyBody (JSNum.fin 500))).1
    (JSNum.fin 500) rfl

/-- Claim C2: whenever the handler reaches the processor call, a caller-supplied
non-empty idempotencyKey is forwarded as `idempotency_key` unchanged, and the
server-generated key is used only when the caller omitted the field. -/
theorem claim_C2_idempotency_key (env : PBEnv) (event : PBEvent) (freshKey : String)
    (b : RequestBody) (call : SquareCall)
    (hbody : event.body = ParsedBody.parsed b)
    (hpre : handlerPre env event freshKey = Sum.inr call) :
    (∀ k, b.idempotencyKey = some k → k ≠ "" → call.request.idempotency_key = k) ∧
    (b.idempotencyKey = none → call.request.idempotency_key = freshKey) := by
  have hkey : call.request.idempotency_key =
      finalIdempotencyKey b.idempotencyKey freshKey := by
    simp only [handlerPre, hbody] at hpre
    repeat' split at hpre
    all_goals first
      | (injection hpre with h; subst h; rfl)
      | injection hpre
  constructor
  · intro k hk hkne
    rw [hkey, hk]
    simp [finalIdempotencyKey, resolveStr, hkne]
  · intro hk
    rw [hkey, hk]
    rfl

/-- Concrete run that reaches the processor call with a caller-supplied key:
the forwarded `idempotency_key` is the caller's key, not the generated one. -/
theorem claim_C2_witness :
    ({ url := "https://connect.squareupsandbox.com/v2/payments",
       request :=
         { source_id := "cnon:card-nonce",
           idempotency_key := "key-abc-123",
           amount := JSNum.fin 500,
           currency := "USD",
           location_id := "loc-1",
           note := "Little Loaf Cottage - Online Order" } } : SquareCall).request.idempotency_key =
      "key-abc-123" :=
  (claim_C2_idempotency_key configuredEnv
    { httpMethod := "POST", origin := none,
      body := ParsedBody.parsed
        { sourceId := SourceVal.str "cnon:card-nonce", amount := none,
          amountCents := some (JSNum.fin 500), currency := none,
          idempotencyKey := some "key-abc-123" } }
    "fresh-key-1"
    { sourceId := SourceVal.str "cnon:card-nonce", amount := none,
      amountCents := some (JSNum.fin 500), currency := none,
      idempotencyKey := some "key-abc-123" }
    { url := "https://connect.squareupsandbox.com/v2/payments",
      request :=
        { source_id := "cnon:card-nonce",
          idempotency_key := "key-abc-123",
          amount := JSNum.fin 500,
          currency := "USD",
          location_id := "loc-1",
          note := "Little Loaf Cottage - Online Order" } }
    rfl rfl).1 "key-abc-123" rfl (by decide)

/-- Claim C3: with the default bounds (no MIN/MAX configured), an otherwise
valid POST request whose normalized amount is 30 or 1000001 minor units is
answered by the early 400 out-of-bounds response, before the processor call
(the handler result is an early `inl` response, never the outbound call). -/
theorem claim_C3_amount_bounds (env : PBEnv) (event : PBEvent) (freshKey : String)
    (b : RequestBody)
    (hmethod : event.httpMethod = "POST")
    (hbody : event.body = ParsedBody.parsed b)
    (hsid1 : sourceIdFalsy b.sourceId = false)
    (hsid2 : sourceIdValidString b.sourceId = true)
    (hcur : (allowedCurrenciesOf env).contains
      (jsToUpper (resolveStr b.currency "USD")) = true)
    (hmin : env.MIN_AMOUNT_CENTS = none)
    (hmax : env.MAX_AMOUNT_CENTS = none)
    (hamt : finalAmountOf b = JSNum.fin 30 ∨ finalAmountOf b = JSNum.fin 1000001) :
    handlerPre env event freshKey =
      Sum.inl (outOfBoundsResponse env event.origin (JSNum.fin 50) (JSNum.fin 1000000)) ∧
    (outOfBoundsResponse env event.origin (JSNum.fin 50) (JSNum.fin 1000000)).statusCode = 400 ∧
    jsonGetOpt (outOfBoundsResponse env event.origin (JSNum.fin 50) (JSNum.fin 1000000)).body
      "error" = some (Json.str "Invalid payment amount (out of bounds)") ∧
    jsonGetOpt (outOfBoundsResponse env event.origin (JSNum.fin 50) (JSNum.fin 1000000)).body
      "status" = some (Json.str "FAILED") := by
  refine ⟨?_, rfl, ?_, ?_⟩
  · have h30 : jsNumLt (JSNum.fin 30) (JSNum.fin 50) = true := by
      norm_num [jsNumLt]
    have h1M : jsNumGt (JSNum.fin 1000001) (JSNum.fin 1000000) = true := by
      norm_num [jsNumGt]
    have h30' : jsNumGt (JSNum.fin 30) (JSNum.fin 1000000) = false := by
      norm_num [jsNumGt]
    have h1M' : jsNumLt (JSNum.fin 1000001) (JSNum.fin 50) = false := by
      norm_num [jsNumLt]
    cases hamt with
    | inl h =>
      simp [handlerPre, hbody, hmethod, hmin, hmax, h, hsid1, hsid2, hcur,
        jsIsFinite, h30, h30']
      exact fun hns => absurd (by simpa using hcur) hns
    | inr h =>
      simp [handlerPre, hbody, hmethod, hmin, hmax, h, hsid1, hsid2, hcur,
        jsIsFinite, h1M, h1M']
      exact fun hns => absurd (by simpa using hcur) hns
  · simp [outOfBoundsResponse, jsonGetOpt, jsonGet, lookupField]
  · simp [outOfBoundsResponse, jsonGetOpt, jsonGet, lookupField]

/-- Concrete run of the bounds check: `amountCents: 30` with an unconfigured
environment is rejected by the 400 out-of-bounds response before any call. -/
theorem claim_C3_witness :
    handlerPre defaultEnv (postEvent (centsOnlyBody (JSNum.fin 30))) "fresh-key-1" =
      Sum.inl (outOfBoundsResponse defaultEnv none (JSNum.fin 50) (JSNum.fin 1000000)) :=
  (claim_C3_amount_bounds defaultEnv (postEvent (centsOnlyBody (JSNum.fin 30)))
    "fresh-key-1" (centsOnlyBody (JSNum.fin 30)) rfl rfl rfl rfl rfl rfl rfl
    (Or.inl rfl)).1

/-- Claim C8: with the debug flag off, the processor-rejection response has no
`squareResponse` field, and the unexpected-exception response carries only the
generic message — no `detail` field and the fixed error string. -/
theorem claim_C8_no_internal_detail (env : PBEnv) (origin : Option String)
    (data : Json) (e : JsError)
    (hdbg : env.DEBUG_PROCESS_PAYMENT ≠ some "true") :
    jsonGetOpt (handlerPost env origin false data).body "squareResponse" = none ∧
    jsonGetOpt (handlerCatch env e).body "error" = some (Json.str "Internal server error") ∧
    jsonGetOpt (handlerCatch env e).body "detail" = none ∧
    jsonGetOpt (handlerCatch env e).body "status" = some (Json.str "FAILED") := by
  have hd : debugOf env = false := by
    simp only [debugOf]
    exact decide_eq_false hdbg
  refine ⟨?_, ?_, ?_, ?_⟩ <;>
    simp [handlerPost, handlerCatch, processorRejectionResponse,
      unexpectedErrorResponse, hd, jsonGetOpt, jsonGet, lookupField]

/-- Concrete rejection with an unset debug variable: the response omits the
raw `squareResponse` payload. -/
theorem claim_C8_witness :
    jsonGetOpt (handlerPost defaultEnv none false
        (Json.obj [("errors",
          Json.arr [Json.obj [("detail", Json.str "card declined")]])])).body
      "squareResponse" = none :=
  (claim_C8_no_internal_detail defaultEnv none
    (Json.obj [("errors", Json.arr [Json.obj [("detail", Json.str "card declined")]])])
    { message := some "boom", stack := some "trace" } (by decide)).1

/-- The content-type pair is always present in the spread headers. -/
lemma mem_corsJsonHeaders (env : PBEnv) (origin : Option String) :
    ("Content-Type", "application/json") ∈ corsJsonHeaders env origin := by
  simp [corsJsonHeaders]

/-- The 405 response satisfies the invariant. -/
lemma inv_methodNotAllowed : ResponseInvariant methodNotAllowedResponse := by
  refine ⟨by simp [methodNotAllowedResponse], ?_, ?_⟩ <;>
    simp [methodNotAllowedResponse, jsonGetOpt, jsonGet, lookupField]

/-- The bad-JSON response satisfies the invariant. -/
lemma inv_invalidJson : ResponseInvariant invalidJsonResponse := by
  refine ⟨by simp [invalidJsonResponse], ?_, ?_⟩ <;>
    simp [invalidJsonResponse, jsonGetOpt, jsonGet, lookupField]

/-- The missing-sourceId response satisfies the invariant. -/
lemma inv_missingSourceId (env : PBEnv) (origin : Option String) :
    ResponseInvariant (missingSourceIdResponse env origin) := by
  refine ⟨mem_corsJsonHeaders env origin, ?_, ?_⟩ <;>
    simp [missingSourceIdResponse, jsonGetOpt, jsonGet, lookupField]

/-- The invalid-sourceId response satisfies the invariant. -/
lemma inv_invalidSourceId (env : PBEnv) (origin : Option String) :
    ResponseInvariant (invalidSourceIdResponse env origin) := by
  refine ⟨mem_corsJsonHeaders env origin, ?_, ?_⟩ <;>
    simp [invalidSourceIdResponse, jsonGetOpt, jsonGet, lookupField]

/-- The unsupported-currency response satisfies the invariant. -/
lemma inv_unsupportedCurrency (env : PBEnv) (origin : Option String) :
    ResponseInvariant (unsupportedCurrencyResponse env origin) := by
  refine ⟨mem_corsJsonHeaders env origin, ?_, ?_⟩ <;>
    simp [unsupportedCurrencyResponse, jsonGetOpt, jsonGet, lookupField]

/-- The out-of-bounds response satisfies the invariant. -/
lemma inv_outOfBounds (env : PBEnv) (origin : Option String) (minC maxC : JSNum) :
    ResponseInvariant (outOfBoundsResponse env origin minC maxC) := by
  refine ⟨mem_corsJsonHeaders env origin, ?_, ?_⟩ <;>
    simp [outOfBoundsResponse, jsonGetOpt, jsonGet, lookupField]

/-- The configuration-error response satisfies the invariant. -/
lemma inv_serverConfig (env : PBEnv) (origin : Option String) :
    ResponseInvariant (serverConfigErrorResponse env origin) := by
  refine ⟨mem_corsJsonHeaders env origin, ?_, ?_⟩ <;>
    simp [serverConfigErrorResponse, jsonGetOpt, jsonGet, lookupField]

/-- The processor-rejection response satisfies the invariant in both debug
modes. -/
lemma inv_processorRejection (env : PBEnv) (origin : Option String) (data : Json) :
    ResponseInvariant (processorRejectionResponse env origin data) := by
  refine ⟨mem_corsJsonHeaders env origin, ?_, ?_⟩ <;>
    cases hd : debugOf env <;>
      simp [processorRejectionResponse, hd, jsonGetOpt, jsonGet, lookupField]

/-- The success response satisfies the invariant. -/
lemma inv_completed (env : PBEnv) (origin : Option String) (data : Json) :
    ResponseInvariant (completedResponse env origin data) := by
  refine ⟨mem_corsJsonHeaders env origin, ?_, ?_⟩ <;>
    simp [completedResponse, jsonGetOpt, jsonGet, lookupField]

/-- The catch-block response satisfies the invariant in both debug modes. -/
lemma inv_unexpectedError (env : PBEnv) (e : JsError) :
    ResponseInvariant (unexpectedErrorResponse env e) := by
  refine ⟨?_, ?_, ?_⟩ <;>
    cases hd : debugOf env <;>
      simp [unexpectedErrorResponse, hd, jsonGetOpt, jsonGet, lookupField]

/-- Claim C10: every response the handler returns to a POST request — across
the parse, validation, configuration, processor-success, processor-rejection
and exception branches — carries the JSON content type and a status field that
is COMPLETED or FAILED, with COMPLETED exactly on HTTP 200. -/
theorem claim_C10_response_shape (env : PBEnv) (event : PBEvent) (freshKey : String)
    (hmethod : event.httpMethod = "POST") :
    PreInvariant (handlerPre env event freshKey) ∧
    (∀ responseOk data, ResponseInvariant (handlerPost env event.origin responseOk data)) ∧
    (∀ e, ResponseInvariant (handlerCatch env e)) := by
  refine ⟨?_, ?_, ?_⟩
  · rcases event with ⟨m, origin, body⟩
    simp only at hmethod
    subst hmethod
    cases body with
    | malformed => exact inv_invalidJson
    | parsed b =>
      simp only [handlerPre]
      rw [if_neg (by decide), if_neg (by decide)]
      repeat' split
      all_goals first
        | trivial
        | exact inv_missingSourceId env origin
        | exact inv_invalidSourceId env origin
        | exact inv_unsupportedCurrency env origin
        | exact inv_outOfBounds env origin _ _
        | exact inv_serverConfig env origin
  · intro responseOk data
    cases responseOk with
    | false => exact inv_processorRejection env event.origin data
    | true => exact inv_completed env event.origin data
  · intro e
    exact inv_unexpectedError env e

/-- Concrete POST request: the returned early response obeys the shape
invariant, as do the post-call and catch responses. -/
theorem claim_C10_witness :
    PreInvariant (handlerPre defaultEnv (postEvent (centsOnlyBody (JSNum.fin 30))) "fresh-key-1") ∧
    ResponseInvariant (handlerPost defaultEnv none true Json.null) :=
  ⟨(claim_C10_response_shape defaultEnv (postEvent (centsOnlyBody (JSNum.fin 30)))
      "fresh-key-1" rfl).1,
    (claim_C10_response_shape defaultEnv (postEvent (centsOnlyBody (JSNum.fin 30)))
      "fresh-key-1" rfl).2.1 true Json.null⟩

/-- A foldl that adds `f x` at each step is the sum of the mapped list. -/
lemma foldl_add_map {α : Type} (f : α → ℚ) (l : List α) (a : ℚ) :
    l.foldl (fun t x => t + f x) a = a + (l.map f).sum := by
  induction l generalizing a with
  | nil => simp
  | cons x rest ih => simp [ih, add_assoc]

/-- `totalPrice` as a mapped sum. -/
lemma totalPrice_eq_sum (items : List OrderItem) :
    totalPrice items = (items.map (fun i => i.price)).sum := by
  simpa [totalPrice] using foldl_add_map (fun i => i.price) items 0

/-- `groupedTotal` as a mapped sum. -/
lemma groupedTotal_eq_sum (gs : List GroupedItem) :
    groupedTotal gs = (gs.map (fun g => g.price * (g.quantity : ℚ))).sum := by
  simpa [groupedTotal] using foldl_add_map (fun g => g.price * (g.quantity : ℚ)) gs 0

/-- Members of `incrementFirst` keep the name and price of a source entry. -/
lemma mem_incrementFirst {n : String} {gs : List GroupedItem} {g' : GroupedItem}
    (h : g' ∈ incrementFirst n gs) :
    ∃ g ∈ gs, g'.name = g.name ∧ g'.price = g.price := by
  induction gs with
  | nil => simp [incrementFirst] at h
  | cons g rest ih =>
    by_cases hg : g.name = n
    · simp only [incrementFirst, if_pos hg, List.mem_cons] at h
      rcases h with h | h
      · exact ⟨g, by simp, by simp [h], by simp [h]⟩
      · exact ⟨g', by simp [h], rfl, rfl⟩
    · simp only [incrementFirst, if_neg hg, List.mem_cons] at h
      rcases h with h | h
      · exact ⟨g, by simp, by simp [h], by simp [h]⟩
      · rcases ih h with ⟨g0, hg0, h1, h2⟩
        exact ⟨g0, by simp [hg0], h1, h2⟩

/-- Bumping the first entry named `n` adds one unit of its price `p` to the
grouped sum, provided every entry named `n` carries price `p`. -/
lemma sum_incrementFirst {n : String} {p : ℚ} {gs : List GroupedItem}
    (hall : ∀ g ∈ gs, g.name = n → g.price = p)
    (hany : gs.any (fun g => g.name = n) = true) :
    ((incrementFirst n gs).map (fun g => g.price * (g.quantity : ℚ))).sum =
      (gs.map (fun g => g.price * (g.quantity : ℚ))).sum + p := by
  induction gs with
  | nil => simp at hany
  | cons g rest ih =>
    by_cases hg : g.name = n
    · have hp : g.price = p := hall g (by simp) hg
      simp only [incrementFirst, if_pos hg, List.map_cons, List.sum_cons]
      rw [hp]
      push_cast
      ring
    · have hany' : rest.any (fun g => g.name = n) = true := by
        simpa [hg] using hany
      have hall' : ∀ g0 ∈ rest, g0.name = n → g0.price = p :=
        fun g0 hm => hall g0 (by simp [hm])
      simp only [incrementFirst, if_neg hg, List.map_cons, List.sum_cons]
      rw [ih hall' hany']
      ring

/-- Invariant of the grouping fold: with a price-consistent item list and an
accumulator whose entries price-match the remaining items, the grouped sum of
the fold result is the accumulator's grouped sum plus the plain price sum of
the items. -/
lemma grouped_run (l : List OrderItem) : ∀ acc : List GroupedItem,
    (∀ g ∈ acc, ∀ it ∈ l, g.name = it.name → g.price = it.price) →
    PriceConsistent l →
    ((l.foldl groupStep acc).map (fun g => g.price * (g.quantity : ℚ))).sum =
      (acc.map (fun g => g.price * (g.quantity : ℚ))).sum +
        (l.map (fun i => i.price)).sum := by
  induction l with
  | nil =>
    intro acc _ _
    simp
  | cons it rest ih =>
    intro acc hacc hpc
    have hpc' : PriceConsistent rest :=
      fun i j hi hj => hpc i j (by simp [hi]) (by simp [hj])
    simp only [List.foldl_cons]
    by_cases hmem : acc.any (fun g => g.name = it.name) = true
    · have hstep : groupStep acc it = incrementFirst it.name acc := by
        simp [groupStep, hmem]
      have hall : ∀ g ∈ acc, g.name = it.name → g.price = it.price :=
        fun g hg => hacc g hg it (by simp)
      have hacc' : ∀ g ∈ incrementFirst it.name acc, ∀ it' ∈ rest,
          g.name = it'.name → g.price = it'.price := by
        intro g' hg' it' hit' hname
        rcases mem_incrementFirst hg' with ⟨g0, hg0, hn, hp⟩
        rw [hp]
        exact hacc g0 hg0 it' (by simp [hit']) (hn ▸ hname)
      rw [hstep, ih (incrementFirst it.name acc) hacc' hpc',
        sum_incrementFirst hall hmem]
      simp
      ring
    · have hstep : groupStep acc it =
          acc ++ [{ name := it.name, price := it.price, quantity := 1 }] := by
        simp [groupStep, hmem]
      have hacc' : ∀ g ∈ acc ++ [({ name := it.name, price := it.price, quantity := 1 } : GroupedItem)],
          ∀ it' ∈ rest, g.name = it'.name → g.price = it'.price := by
        intro g hg it' hit' hname
        rcases List.mem_append.1 hg with hgl | hgr
        · exact hacc g hgl it' (by simp [hit']) hname
        · have hgeq : g = { name := it.name, price := it.price, quantity := 1 } := by
            simpa using hgr
          subst hgeq
          exact hpc it it' (by simp) (by simp [hit']) hname
      rw [hstep, ih _ hacc' hpc']
      simp
      ring

/-- Claim C6: for every sequence of add/remove operations from the empty cart,
the recomputed `totalPrice` equals the sum of unit price times quantity over
the grouped entries, provided entries sharing a name share a unit price (in
the application, items are fixed menu entries identified by name). The total
is a pure function of the entries; no independent stored total exists. -/
theorem claim_C6_cart_total_invariant (ops : List CartOp)
    (hpc : PriceConsistent (runCartOps ops [])) :
    totalPrice (runCartOps ops []) =
      groupedTotal (uniqueItems (runCartOps ops [])) := by
  rw [totalPrice_eq_sum, groupedTotal_eq_sum]
  have h := grouped_run (runCartOps ops []) [] (by simp) hpc
  simpa [uniqueItems] using h.symm

/-- Concrete run of the cart invariant: add the same item twice and attempt an
out-of-range removal; the recomputed total matches the grouped sum. -/
theorem claim_C6_witness :
    totalPrice (runCartOps
        [CartOp.add ⟨"brioche", 6⟩, CartOp.add ⟨"brioche", 6⟩, CartOp.remove 5] []) =
      groupedTotal (uniqueItems (runCartOps
        [CartOp.add ⟨"brioche", 6⟩, CartOp.add ⟨"brioche", 6⟩, CartOp.remove 5] [])) :=
  claim_C6_cart_total_invariant
    [CartOp.add ⟨"brioche", 6⟩, CartOp.add ⟨"brioche", 6⟩, CartOp.remove 5]
    (by
      intro i j hi hj _
      have hrun : runCartOps
          [CartOp.add ⟨"brioche", 6⟩, CartOp.add ⟨"brioche", 6⟩, CartOp.remove 5] [] =
          [⟨"brioche", 6⟩, ⟨"brioche", 6⟩] := rfl
      rw [hrun] at hi hj
      simp at hi hj
      rw [hi, hj])
